import Mathlib

/-
Shallow embedding of the HealthcareDashboard React component
(src/unnamed/part_000): form state, validation, file selection and the
submission protocol. Pure functions model the event handlers as state
transformers; the asynchronous submit handler is split at its single
suspension point (the HTTP request) into a start phase and a settle phase.
-/

set_option maxHeartbeats 1000000

namespace HealthcareDashboard

/-- Test whether the second character list occurs at the start of the first. -/
def chStartsWith : List Char → List Char → Bool
  | _, [] => true
  | [], _ :: _ => false
  | a :: as, b :: bs => a == b && chStartsWith as bs

/-- Test whether the second character list occurs anywhere inside the first. -/
def chContains : List Char → List Char → Bool
  | [], needle => needle.isEmpty
  | a :: t, needle => chStartsWith (a :: t) needle || chContains t needle

/-- Model of JavaScript `haystack.includes(needle)` (substring test),
used by the source at `error.message.includes("Network Error")`. -/
def strIncludes (haystack needle : String) : Bool :=
  chContains haystack.toList needle.toList

/-- The JavaScript WhiteSpace/LineTerminator character class: the set matched
by `\s` in a regular expression and stripped by `String.prototype.trim`
(ASCII whitespace plus the common Unicode members). -/
def isJsWhitespace (c : Char) : Bool :=
  c == ' ' || c == '\t' || c == '\n' || c == '\r' ||
  c == Char.ofNat 11 || c == Char.ofNat 12 ||
  c == Char.ofNat 0xa0 || c == Char.ofNat 0x2028 ||
  c == Char.ofNat 0x2029 || c == Char.ofNat 0xfeff

/-- Model of JavaScript `String.prototype.trim`: strip leading and trailing
JS whitespace. -/
def jsTrim (s : String) : String :=
  String.mk (((s.toList.dropWhile isJsWhitespace).reverse.dropWhile
    isJsWhitespace).reverse)

/-- ASCII letter, the character class `[a-zA-Z]`. -/
def isAsciiLetter (c : Char) : Bool :=
  (97 ≤ c.toNat && c.toNat ≤ 122) || (65 ≤ c.toNat && c.toNat ≤ 90)

/-- Model of the source's regular-expression test `/^[a-zA-Z\s]*$/.test(s)`:
every character of `s` is an ASCII letter or JS whitespace. -/
def nameRegexTest (s : String) : Bool :=
  s.toList.all (fun c => isAsciiLetter c || isJsWhitespace c)

/-- Accumulate a decimal digit list into its numeric value. -/
def digitsVal (cs : List Char) : Nat :=
  List.foldl (fun a c => 10 * a + (c.toNat - 48)) 0 cs

/-- Model of JavaScript numeric coercion `Number(s)` as applied by the
comparisons `formData.age < 0 || formData.age > 150`, restricted to the
strings an age field holds: the empty string (which coerces to 0, though the
source never compares it because `!formData.age` catches it first) and
signed decimal-integer strings. Every other string is NaN, modelled as
`none`; NaN makes both comparisons false in JavaScript. -/
def jsNumber (s : String) : Option Int :=
  match s.toList with
  | [] => some 0
  | '-' :: rest =>
      if !rest.isEmpty && rest.all (fun c => c.isDigit) then
        some (-(digitsVal rest : Int))
      else none
  | cs =>
      if cs.all (fun c => c.isDigit) then some ((digitsVal cs : Int))
      else none

/-- The relevant attributes of a JavaScript `File` object as used by
`handleFileSelection`: `file.type` (MIME type) and `file.size` (bytes),
plus the filename shown in the UI. The binary content never influences the
control flow and is omitted. -/
structure FileObject where
  name : String
  type : String
  size : Nat
  deriving Repr, DecidableEq

/-- The `formData` state record: `{ name: "", age: "", file: null }`.
Both text fields hold raw strings exactly as the controlled inputs do. -/
structure FormData where
  name : String
  age : String
  file : Option FileObject
  deriving Repr, DecidableEq

/-- The `errors` state object. Each field key is either absent from the
object (`none`) or present with a message string (`some s`; the source
stores `""` to clear an error without deleting the key). -/
structure ErrorsMap where
  name : Option String
  age : Option String
  file : Option String
  deriving Repr, DecidableEq

/-- JavaScript truthiness of `errors[key]`: the key is present and its
message is non-empty. -/
def errTruthy : Option String → Bool
  | none => false
  | some s => !s.isEmpty

/-- Model of `Object.keys(e).length` on an errors object. -/
def ErrorsMap.keysCount (e : ErrorsMap) : Nat :=
  (if e.name.isSome then 1 else 0) + (if e.age.isSome then 1 else 0) +
    (if e.file.isSome then 1 else 0)

/-- The component state: `formData`, `errors`, `isSubmitting`,
`submitMessage`, `messageType`, `isDragging`. -/
structure State where
  formData : FormData
  errors : ErrorsMap
  isSubmitting : Bool
  submitMessage : String
  messageType : String
  isDragging : Bool
  deriving Repr, DecidableEq

/-- The initial state of a form session, from the `useState` initialisers. -/
def initialState : State :=
  { formData := { name := "", age := "", file := none },
    errors := { name := none, age := none, file := none },
    isSubmitting := false,
    submitMessage := "",
    messageType := "",
    isDragging := false }

/-- The name branch of `validateForm`: `!formData.name.trim()` gives
"Name is required"; `formData.name.length < 2` (the untrimmed length)
gives "Name must be at least 2 characters"; failing
`/^[a-zA-Z\s]*$/.test(formData.name)` gives "Name should only contain
letters". -/
def nameError (name : String) : Option String :=
  if (jsTrim name).isEmpty then some "Name is required"
  else if name.length < 2 then some "Name must be at least 2 characters"
  else if !(nameRegexTest name) then some "Name should only contain letters"
  else none

/-- The age branch of `validateForm`: `!formData.age` (the empty string)
gives "Age is required"; otherwise `formData.age < 0 || formData.age > 150`
under JS numeric coercion gives "Age must be between 0 and 150". -/
def ageError (age : String) : Option String :=
  if age.isEmpty then some "Age is required"
  else
    match jsNumber age with
    | some n => if n < 0 ∨ 150 < n then some "Age must be between 0 and 150"
                else none
    | none => none

/-- Model of `validateForm`: builds a fresh `newErrors` object holding only
the name and age findings (no file key is ever added), replaces the whole
`errors` state with it via `setErrors(newErrors)`, and returns
`Object.keys(newErrors).length === 0`. -/
def validateForm (s : State) : State × Bool :=
  let newErrors : ErrorsMap :=
    { name := nameError s.formData.name,
      age := ageError s.formData.age,
      file := none }
  ({ s with errors := newErrors }, newErrors.keysCount == 0)

/-- The two text-input field keys handled by `handleInputChange`
(`e.target.name` is `"name"` or `"age"`). -/
inductive FieldKey
  | name
  | age
  deriving Repr, DecidableEq

/-- Look up `errors[key]` for a text field key. -/
def ErrorsMap.get (e : ErrorsMap) : FieldKey → Option String
  | .name => e.name
  | .age => e.age

/-- Write `errors[key]` for a text field key. -/
def ErrorsMap.set (e : ErrorsMap) : FieldKey → Option String → ErrorsMap
  | .name, v => { e with name := v }
  | .age, v => { e with age := v }

/-- Model of `handleInputChange`: store the new value under the field key
and, if `errors[key]` was truthy, overwrite it with `""`. -/
def handleInputChange (s : State) (k : FieldKey) (v : String) : State :=
  let fd := match k with
    | .name => { s.formData with name := v }
    | .age => { s.formData with age := v }
  let er := if errTruthy (s.errors.get k) then s.errors.set k (some "")
            else s.errors
  { s with formData := fd, errors := er }

/-- The allowed MIME types of `handleFileSelection`. -/
def allowedTypes : List String :=
  ["application/pdf", "image/jpeg", "image/png"]

/-- The size limit `5 * 1024 * 1024` of `handleFileSelection`. -/
def maxSize : Nat := 5 * 1024 * 1024

/-- Model of `handleFileSelection`: reject a candidate whose MIME type is
not allowed (type message), else reject one larger than `maxSize` (size
message); on rejection `formData` is untouched. Otherwise store the file
and set `errors.file` to `""`. -/
def handleFileSelection (s : State) (file : FileObject) : State :=
  if !(allowedTypes.contains file.type) then
    { s with errors :=
        { s.errors with file := some "Only PDF, JPEG, and PNG files are allowed" } }
  else if maxSize < file.size then
    { s with errors :=
        { s.errors with file := some "File size should be less than 5MB" } }
  else
    { s with
        formData := { s.formData with file := some file },
        errors := { s.errors with file := some "" } }

/-- The part of an axios error response the handler reads: `status` and the
optional `data.error` field of the parsed JSON body (`none` when the body is
missing, not JSON, or has no `error` field). -/
structure AxiosResponse where
  status : Nat
  dataError : Option String
  deriving Repr, DecidableEq

/-- The shape of an axios rejection as read by the catch block:
`error.code`, `error.message`, `error.response` (absent on transport
failure and timeout). -/
structure AxiosError where
  code : Option String
  message : String
  response : Option AxiosResponse
  deriving Repr, DecidableEq

/-- JavaScript `a || b` on an optional string against a default: an absent
or empty string falls through to the right operand. -/
def jsOrString (a : Option String) (b : String) : String :=
  match a with
  | some s => if s.isEmpty then b else s
  | none => b

/-- Model of the catch block's message selection:
`error.response?.data?.error || error.message || "Submission error"` as the
base, then overridden in order by the `ECONNABORTED` check, the 413 status
check, and the `"Network Error"` substring check. -/
def errorMessageFor (e : AxiosError) : String :=
  let base := jsOrString (e.response.bind (fun r => r.dataError))
    (jsOrString (some e.message) "Submission error")
  if e.code == some "ECONNABORTED" then "Request timed out. Please try again."
  else if e.response.map (fun r => r.status) == some 413 then
    "File is too large. Maximum size is 5MB."
  else if strIncludes e.message "Network Error" then
    "Network error. Please check your connection."
  else base

/-- Outcome of the awaited `axios.post`: fulfilled with the `message` field
of the parsed 2xx JSON body, or rejected with an axios error. -/
inductive SubmitOutcome
  | ok (message : String)
  | err (e : AxiosError)
  deriving Repr, DecidableEq

/-- Model of `handleSubmit` up to its suspension point: run `validateForm`;
on failure set the error message type and the fixed failure message and
return `false` (no request). On success set `isSubmitting := true`, clear
`submitMessage`, and return `true` (the request is issued). -/
def submitStart (s : State) : State × Bool :=
  let p := validateForm s
  if p.2 then
    ({ p.1 with isSubmitting := true, submitMessage := "" }, true)
  else
    ({ p.1 with
        messageType := "error",
        submitMessage := "Please fix the errors before submitting." }, false)

/-- Model of `handleSubmit` after the request settles. On fulfilment set the
success message type, show the response message, and reset `formData`; on
rejection set the error message type and the mapped failure message. The
finally block then sets `isSubmitting := false` and schedules the 5000 ms
`setTimeout` clearing `submitMessage` only when `messageType === "success"`
— where `messageType` is the stale closure value captured at the render
that invoked `handleSubmit`, passed here as `closureMessageType`. The
returned Bool records whether the timeout was scheduled. -/
def submitSettle (closureMessageType : String) (s : State)
    (outcome : SubmitOutcome) : State × Bool :=
  let s1 := match outcome with
    | .ok msg =>
        { s with
            messageType := "success",
            submitMessage := msg,
            formData := { name := "", age := "", file := none } }
    | .err e =>
        { s with
            messageType := "error",
            submitMessage := errorMessageFor e }
  ({ s1 with isSubmitting := false }, closureMessageType == "success")

/-- Observable effects of one `handleSubmit` run: whether the HTTP request
was issued, the form data serialised into it, and whether the delayed
message clear was scheduled. -/
structure SubmitEffects where
  networkCalled : Bool
  payload : Option FormData
  scheduledClear : Bool
  deriving Repr, DecidableEq

/-- Model of one complete `handleSubmit` run: the start phase, then — only
when the request was issued — the settle phase on the given outcome. -/
def handleSubmit (s : State) (outcome : SubmitOutcome) :
    State × SubmitEffects :=
  let p := submitStart s
  if p.2 then
    let q := submitSettle s.messageType p.1 outcome
    (q.1, { networkCalled := true, payload := some s.formData,
            scheduledClear := q.2 })
  else
    (p.1, { networkCalled := false, payload := none,
            scheduledClear := false })

/-- Helper: `validateForm` rewrites only `errors`; `formData` is kept. -/
theorem validateForm_fst_formData (s : State) :
    (validateForm s).1.formData = s.formData := rfl

/-- C1 counterexample: the claim is false on the code. In a state with a
valid name and age but a non-empty `fieldErrors.file` (as left by a rejected
`selectFile`), `validateForm` returns `true` — it builds `newErrors` from the
name and age rules only and never consults (indeed it erases) the file entry
— and `handleSubmit` issues the network request instead of blocking with the
fixed failure message. -/
theorem c1_counterexample :
    let s : State :=
      { initialState with
          formData := { name := "Jane", age := "30", file := none },
          errors := { name := none, age := none,
                      file := some "Only PDF, JPEG, and PNG files are allowed" } }
    errTruthy s.errors.file = true ∧ (validateForm s).2 = true ∧
      (handleSubmit s (SubmitOutcome.ok "ok")).2.networkCalled = true ∧
      (handleSubmit s (SubmitOutcome.ok "ok")).1.submitMessage ≠
        "Please fix the errors before submitting." := by
  decide

/-- C1 (amended): `validateForm` returns true iff neither the name rule nor
the age rule produced an error; `fieldErrors.file` never enters the
decision. Whenever it returns false, `submit` records
`Failure("Please fix the errors before submitting.")` and performs no
network call; whenever it returns true the request is issued. -/
theorem c1_submit_blocking (s : State) (o : SubmitOutcome) :
    ((validateForm s).2 = true ↔
      (nameError s.formData.name = none ∧ ageError s.formData.age = none))
    ∧ ((validateForm s).2 = false →
        (handleSubmit s o).2.networkCalled = false ∧
        (handleSubmit s o).1.messageType = "error" ∧
        (handleSubmit s o).1.submitMessage =
          "Please fix the errors before submitting.")
    ∧ ((validateForm s).2 = true →
        (handleSubmit s o).2.networkCalled = true) := by
  cases hn : nameError s.formData.name <;>
    cases ha : ageError s.formData.age <;>
      simp [validateForm, ErrorsMap.keysCount, handleSubmit, submitStart,
        hn, ha]

/-- C1 witness: Scenario B on the initial state (empty name): no network
call and the fixed failure message. -/
theorem c1_submit_blocking_witness :
    (handleSubmit initialState (SubmitOutcome.ok "x")).2.networkCalled = false ∧
    (handleSubmit initialState (SubmitOutcome.ok "x")).1.submitMessage =
      "Please fix the errors before submitting." :=
  ⟨((c1_submit_blocking initialState (SubmitOutcome.ok "x")).2.1
      (by decide)).1,
   ((c1_submit_blocking initialState (SubmitOutcome.ok "x")).2.1
      (by decide)).2.2⟩

/-- C2 counterexample: an oversized file whose MIME type is not allowed is
rejected with the TYPE message, not the size message — the size message is
not set "regardless of the candidate's mimeType" because the type check runs
first and returns early. -/
theorem c2_counterexample :
    let f : FileObject := { name := "big.txt", type := "text/plain",
                            size := 6000000 }
    5242880 < f.size ∧
    (handleFileSelection initialState f).errors.file ≠
      some "File size should be less than 5MB" ∧
    (handleFileSelection initialState f).errors.file =
      some "Only PDF, JPEG, and PNG files are allowed" := by
  decide

/-- C2 (amended): for every candidate whose MIME type is allowed and whose
size exceeds 5242880 bytes, `handleFileSelection` sets the size message and
leaves `formData` (in particular the stored file) unchanged; a candidate
with size ≤ 5242880 is never rejected by the size rule (candidates of a
disallowed MIME type are rejected by the type rule with the type message,
whatever their size). -/
theorem c2_size_rule (s : State) (f : FileObject) :
    (allowedTypes.contains f.type = true → 5242880 < f.size →
      (handleFileSelection s f).errors.file =
        some "File size should be less than 5MB" ∧
      (handleFileSelection s f).formData = s.formData)
    ∧ (f.size ≤ 5242880 →
      (handleFileSelection s f).errors.file ≠
        some "File size should be less than 5MB") := by
  constructor
  · intro ht hs
    have ht' : f.type ∈ allowedTypes := by simpa using ht
    have hs' : maxSize < f.size := by simp only [maxSize]; omega
    simp [handleFileSelection, ht', hs']
  · intro hs
    by_cases ht : f.type ∈ allowedTypes
    · have hns : ¬ (maxSize < f.size) := by simp only [maxSize]; omega
      simp [handleFileSelection, ht, hns]
    · simp [handleFileSelection, ht]

/-- C2 witness: a 6 MB PDF is rejected with the size message and the form
data is unchanged; a small PDF is not rejected by the size rule. -/
theorem c2_size_rule_witness :
    ((handleFileSelection initialState
        { name := "scan.pdf", type := "application/pdf", size := 6000000 }).errors.file =
      some "File size should be less than 5MB" ∧
     (handleFileSelection initialState
        { name := "scan.pdf", type := "application/pdf", size := 6000000 }).formData =
      initialState.formData) ∧
    (handleFileSelection initialState
        { name := "ok.pdf", type := "application/pdf", size := 1000 }).errors.file ≠
      some "File size should be less than 5MB" :=
  ⟨(c2_size_rule initialState
      { name := "scan.pdf", type := "application/pdf", size := 6000000 }).1
      (by decide) (by decide),
   (c2_size_rule initialState
      { name := "ok.pdf", type := "application/pdf", size := 1000 }).2
      (by decide)⟩

/-- C3 counterexample: the second name rule uses the UNTRIMMED length, not
the trimmed length. For the name " a" the trimmed value "a" is non-empty
with trimmed length 1 < 2, so the claim requires the at-least-2-characters
error, but `validateForm` reports no name error at all. -/
theorem c3_counterexample :
    (jsTrim " a").isEmpty = false ∧ (jsTrim " a").length < 2 ∧
    (validateForm
      { initialState with
          formData := { name := " a", age := "30", file := none } }).1.errors.name
      = none := by
  decide

/-- C3 (amended): `validateForm` assigns the name error by the ordered
rules with the UNTRIMMED length in the second rule: empty/whitespace-only
name gives "Name is required"; else raw length < 2 gives "Name must be at
least 2 characters"; else a character outside letters and whitespace gives
"Name should only contain letters"; and every name of only
letters/whitespace, raw length ≥ 2 and non-empty after trimming gets no
name error. -/
theorem c3_name_rules (s : State) :
    ((jsTrim s.formData.name).isEmpty = true →
       (validateForm s).1.errors.name = some "Name is required")
    ∧ ((jsTrim s.formData.name).isEmpty = false →
       s.formData.name.length < 2 →
       (validateForm s).1.errors.name =
         some "Name must be at least 2 characters")
    ∧ ((jsTrim s.formData.name).isEmpty = false →
       2 ≤ s.formData.name.length →
       nameRegexTest s.formData.name = false →
       (validateForm s).1.errors.name =
         some "Name should only contain letters")
    ∧ (nameRegexTest s.formData.name = true →
       2 ≤ s.formData.name.length →
       (jsTrim s.formData.name).isEmpty = false →
       (validateForm s).1.errors.name = none) := by
  refine ⟨fun h1 => ?_, fun h1 h2 => ?_, fun h1 h2 h3 => ?_,
    fun h1 h2 h3 => ?_⟩
  · simp [validateForm, nameError, h1]
  · simp [validateForm, nameError, h1, h2]
  · simp [validateForm, nameError, h1, h3, Nat.not_lt.mpr h2]
  · simp [validateForm, nameError, h3, h1, Nat.not_lt.mpr h2]

/-- C3 witness: "Jane Doe" (letters and whitespace, length ≥ 2, non-empty
after trim) gets no name error. -/
theorem c3_name_rules_witness :
    (validateForm
      { initialState with
          formData := { name := "Jane Doe", age := "", file := none } }).1.errors.name
      = none :=
  (c3_name_rules
      { initialState with
          formData := { name := "Jane Doe", age := "", file := none } }).2.2.2
    (by decide) (by decide) (by decide)

/-- C4: on the first successful submission of a fresh session the handler
returns the success outcome carrying the `message` field of the response
body and resets `name`, `age` and `file` — but the 5000 ms clearing of the
result is NOT scheduled: the finally-block guard `messageType === "success"`
reads the stale closure value of `messageType` captured at the render that
invoked `handleSubmit` (here `""`), not the value just set, so
`scheduledClear` is `false` and the success message persists. -/
theorem c4_stale_clear :
    let s : State :=
      { initialState with
          formData := { name := "Jane", age := "30", file := none } }
    let r := handleSubmit s (SubmitOutcome.ok "Form submitted successfully")
    s.messageType = "" ∧
    r.1.messageType = "success" ∧
    r.1.submitMessage = "Form submitted successfully" ∧
    r.1.formData = { name := "", age := "", file := none } ∧
    r.2.scheduledClear = false := by
  decide

/-- C5: `validateForm` assigns the age error by the rules: empty age gives
"Age is required"; a numeric age below 0 or above 150 gives "Age must be
between 0 and 150"; a numeric age inside the closed range [0, 150] gives no
age error. -/
theorem c5_age_rules (s : State) (n : Int) :
    (s.formData.age = "" →
      (validateForm s).1.errors.age = some "Age is required")
    ∧ (s.formData.age ≠ "" → jsNumber s.formData.age = some n →
        ((n < 0 ∨ 150 < n) →
          (validateForm s).1.errors.age =
            some "Age must be between 0 and 150")
        ∧ (0 ≤ n → n ≤ 150 → (validateForm s).1.errors.age = none)) := by
  constructor
  · intro h1
    simp [validateForm, ageError, h1, String.isEmpty_iff]
  · intro h1 h2
    have h0 : s.formData.age.isEmpty = false := by
      rw [Bool.eq_false_iff]
      intro hc
      exact h1 ((String.isEmpty_iff _).mp hc)
    constructor
    · intro h3
      simp [validateForm, ageError, h0, h2, h3]
    · intro h4 h5
      have h6 : ¬ (n < 0 ∨ 150 < n) := by omega
      simp [validateForm, ageError, h0, h2, h6]

/-- C5 witness: age "200" gets the range error, age "30" gets no age error,
and the empty age of the initial state gets the required error. -/
theorem c5_age_rules_witness :
    (validateForm
      { initialState with
          formData := { name := "", age := "200", file := none } }).1.errors.age
      = some "Age must be between 0 and 150" ∧
    (validateForm
      { initialState with
          formData := { name := "", age := "30", file := none } }).1.errors.age
      = none ∧
    (validateForm initialState).1.errors.age = some "Age is required" :=
  ⟨((c5_age_rules
      { initialState with
          formData := { name := "", age := "200", file := none } } 200).2
      (by decide) (by decide)).1 (by decide),
   ((c5_age_rules
      { initialState with
          formData := { name := "", age := "30", file := none } } 30).2
      (by decide) (by decide)).2 (by decide) (by decide),
   (c5_age_rules initialState 0).1 (by decide)⟩

/-- C6: the failure message of a submission is chosen by the claimed
priority order, for every axios error satisfying the axios invariant that a
"Network Error" message implies no response was received: (1) timeout
abort (`code = "ECONNABORTED"`); (2) HTTP 413; (3) network failure with no
response; (4) the `error` field of the JSON response body when present and
non-empty; (5) otherwise the raw transport message, or "Submission error"
when that is empty. -/
theorem c6_failure_priority (e : AxiosError) (r : AxiosResponse) (d : String)
    (hax : strIncludes e.message "Network Error" = true → e.response = none) :
    (e.code = some "ECONNABORTED" →
       errorMessageFor e = "Request timed out. Please try again.")
    ∧ (e.code ≠ some "ECONNABORTED" → e.response = some r →
       r.status = 413 →
       errorMessageFor e = "File is too large. Maximum size is 5MB.")
    ∧ (e.code ≠ some "ECONNABORTED" → e.response = none →
       strIncludes e.message "Network Error" = true →
       errorMessageFor e = "Network error. Please check your connection.")
    ∧ (e.code ≠ some "ECONNABORTED" → e.response = some r →
       r.status ≠ 413 → r.dataError = some d → d.isEmpty = false →
       errorMessageFor e = d)
    ∧ (e.code ≠ some "ECONNABORTED" →
       (∀ r0, e.response = some r0 →
         r0.status ≠ 413 ∧ errTruthy r0.dataError = false) →
       strIncludes e.message "Network Error" = false →
       errorMessageFor e =
         (if e.message.isEmpty then "Submission error" else e.message)) := by
  refine ⟨fun h1 => ?_, fun h1 h2 h3 => ?_, fun h1 h2 h3 => ?_,
    fun h1 h2 h3 h4 h5 => ?_, fun h1 h2 h3 => ?_⟩
  · simp [errorMessageFor, h1]
  · simp [errorMessageFor, h1, h2, h3]
  · simp [errorMessageFor, h1, h2, h3, jsOrString]
  · have hni : strIncludes e.message "Network Error" = false := by
      rw [Bool.eq_false_iff]
      intro hc
      rw [hax hc] at h2
      exact Option.noConfusion h2
    simp [errorMessageFor, h1, h2, h3, h4, h5, hni, jsOrString]
  · cases hr : e.response with
    | none => simp [errorMessageFor, h1, hr, h3, jsOrString]
    | some r0 =>
        obtain ⟨hst, hde⟩ := h2 r0 hr
        cases hd : r0.dataError with
        | none => simp [errorMessageFor, h1, hr, h3, hst, hd, jsOrString]
        | some sd =>
            have hsd : sd.isEmpty = true := by
              rw [hd] at hde
              simpa [errTruthy] using hde
            simp [errorMessageFor, h1, hr, h3, hst, hd, hsd, jsOrString]

/-- C6 witness: a timeout abort maps to the timeout message. -/
theorem c6_failure_priority_witness :
    errorMessageFor
      { code := some "ECONNABORTED",
        message := "timeout of 15000ms exceeded",
        response := none } = "Request timed out. Please try again." :=
  (c6_failure_priority
      { code := some "ECONNABORTED",
        message := "timeout of 15000ms exceeded",
        response := none }
      { status := 400, dataError := none } "x" (by decide)).1 (by decide)

/-- C7: every candidate whose MIME type is not among
`application/pdf`, `image/jpeg`, `image/png` is rejected:
`handleFileSelection` sets the type message in `fieldErrors.file` and
leaves the whole `formData` — in particular the stored file — unchanged. -/
theorem c7_type_rule (s : State) (f : FileObject)
    (h : allowedTypes.contains f.type = false) :
    (handleFileSelection s f).errors.file =
      some "Only PDF, JPEG, and PNG files are allowed" ∧
    (handleFileSelection s f).formData.file = s.formData.file := by
  have h' : f.type ∉ allowedTypes := by simpa using h
  simp [handleFileSelection, h']

/-- C7 witness: Scenario C, a `text/plain` candidate on the initial state. -/
theorem c7_type_rule_witness :
    (handleFileSelection initialState
      { name := "notes.txt", type := "text/plain", size := 100 }).errors.file =
      some "Only PDF, JPEG, and PNG files are allowed" ∧
    (handleFileSelection initialState
      { name := "notes.txt", type := "text/plain", size := 100 }).formData.file =
      initialState.formData.file :=
  c7_type_rule initialState
    { name := "notes.txt", type := "text/plain", size := 100 } (by decide)

/-- C8: `isSubmitting` is true exactly while one request is in flight.
Starting from a quiescent state it is set to true at the suspension point
only when `validateForm` succeeded (so only then is the request issued); it
stays false when validation failed and no request is issued; and after the
request settles — on every outcome — it is false again. -/
theorem c8_submitting_flag (s : State) (o : SubmitOutcome)
    (h : s.isSubmitting = false) :
    ((submitStart s).2 = true →
      (validateForm s).2 = true ∧ (submitStart s).1.isSubmitting = true)
    ∧ ((submitStart s).2 = false → (submitStart s).1.isSubmitting = false)
    ∧ (handleSubmit s o).1.isSubmitting = false := by
  cases hv : (validateForm s).2 with
  | true =>
      refine ⟨fun _ => ⟨rfl, ?_⟩, fun hc => ?_, ?_⟩
      · simp [submitStart, hv]
      · simp [submitStart, hv] at hc
      · cases o <;> simp [handleSubmit, submitStart, submitSettle, hv]
  | false =>
      have hmid : (validateForm s).1.isSubmitting = s.isSubmitting := by
        simp [validateForm]
      refine ⟨fun hc => ?_, fun _ => ?_, ?_⟩
      · simp [submitStart, hv] at hc
      · simp [submitStart, hv, hmid, h]
      · simp [handleSubmit, submitStart, hv, hmid, h]

/-- C8 witness: a valid submission that succeeds ends with
`isSubmitting = false`, and a blocked submission never turns it on. -/
theorem c8_submitting_flag_witness :
    ((handleSubmit
        { initialState with
            formData := { name := "Jane", age := "30", file := none } }
        (SubmitOutcome.ok "done")).1.isSubmitting = false) ∧
    ((submitStart initialState).1.isSubmitting = false) :=
  ⟨(c8_submitting_flag
      { initialState with
          formData := { name := "Jane", age := "30", file := none } }
      (SubmitOutcome.ok "done") (by decide)).2.2,
   (c8_submitting_flag initialState (SubmitOutcome.ok "done")
      (by decide)).2.1 (by decide)⟩

/-- C9: every submission that ends in a failure outcome leaves the form
field values unchanged: when validation fails (any outcome is irrelevant,
no request is made) and when the request is rejected (timeout, HTTP error
or network error), `formData` — name, age and file — equals its value at
the moment `submit()` was invoked. -/
theorem c9_failure_preserves_fields (s : State) (o : SubmitOutcome)
    (e : AxiosError) :
    ((validateForm s).2 = false →
      (handleSubmit s o).1.formData = s.formData)
    ∧ (handleSubmit s (SubmitOutcome.err e)).1.formData = s.formData := by
  constructor
  · intro hv
    simp [handleSubmit, submitStart, hv, validateForm_fst_formData]
  · cases hv : (validateForm s).2 with
    | true =>
        simp [handleSubmit, submitStart, submitSettle, hv,
          validateForm_fst_formData]
    | false => simp [handleSubmit, submitStart, hv, validateForm_fst_formData]

/-- C9 witness: a blocked submission (empty form) and a rejected request
(network error on a valid form) both preserve the entered field values. -/
theorem c9_failure_preserves_fields_witness :
    ((handleSubmit initialState (SubmitOutcome.ok "x")).1.formData =
      initialState.formData) ∧
    ((handleSubmit
        { initialState with
            formData := { name := "Jane", age := "30", file := none } }
        (SubmitOutcome.err
          { code := none, message := "Network Error", response := none })).1.formData =
      { name := "Jane", age := "30", file := none }) :=
  ⟨(c9_failure_preserves_fields initialState (SubmitOutcome.ok "x")
      { code := none, message := "", response := none }).1 (by decide),
   (c9_failure_preserves_fields
      { initialState with
          formData := { name := "Jane", age := "30", file := none } }
      (SubmitOutcome.ok "x")
      { code := none, message := "Network Error", response := none }).2⟩

/-- C10: the non-submit operations — `handleInputChange`,
`handleFileSelection` and `validateForm` — leave `isSubmitting`,
`submitMessage` and `messageType` unchanged; only `handleSubmit` ever
modifies them. -/
theorem c10_frame (s : State) (k : FieldKey) (v : String) (f : FileObject) :
    ((handleInputChange s k v).isSubmitting = s.isSubmitting ∧
     (handleInputChange s k v).submitMessage = s.submitMessage ∧
     (handleInputChange s k v).messageType = s.messageType)
    ∧ ((handleFileSelection s f).isSubmitting = s.isSubmitting ∧
       (handleFileSelection s f).submitMessage = s.submitMessage ∧
       (handleFileSelection s f).messageType = s.messageType)
    ∧ ((validateForm s).1.isSubmitting = s.isSubmitting ∧
       (validateForm s).1.submitMessage = s.submitMessage ∧
       (validateForm s).1.messageType = s.messageType) := by
  refine ⟨?_, ?_, ?_⟩
  · cases k <;> simp [handleInputChange]
  · simp only [handleFileSelection]
    split
    · simp
    · split <;> simp
  · simp [validateForm]

end HealthcareDashboard
